import Mathlib

/-!
Verification of the retrieval-pipeline core of the agentic-RAG repository:
a shallow embedding of `src/tools/custom_tool.py` (DocumentSearchTool,
FireCrawlWebSearchTool), the session-state handlers of `app.py`
(`reset_chat`, `handle_pdf_upload`, the chat turn handler), and the retry /
context-capping logic of `app_orig.py`.

External collaborators (the qdrant vector store, the semantic chunker, the
LLM) are modelled as opaque parameters or by their documented interface;
everything else is translated directly from the Python source.
-/

namespace AgenticRag

/-! ## FireCrawlWebSearchTool (`custom_tool.py`, `_run`)

The HTTP transport is modelled as a function from attempt index to an
outcome: either a parsed JSON response (a list of results, each with an
optional `snippet` field) or a `requests.RequestException` carrying a
message.  `_run` loops `for attempt in range(retries)` with `retries = 3`,
sleeping 2 seconds between failed attempts; we log the sleeps.  If the
loop were entered with zero attempts the Python function would fall off
the loop and return `None`, which the `Option` result models. -/

/-- One entry of the `results` array of the FireCrawl JSON response:
`result.get("snippet", "No snippet available")` reads an optional field. -/
structure WebResult where
  snippet : Option String
deriving DecidableEq

/-- A successfully decoded response body: `data.get("results", [])`. -/
structure WebResponse where
  results : List WebResult
deriving DecidableEq

/-- Outcome of one `requests.get` + `raise_for_status` + `.json()` attempt:
either a decoded body, or a `RequestException` message `e` (transport
failure or non-2xx status). -/
inductive TransportOutcome where
  | ok (data : WebResponse)
  | err (e : String)
deriving DecidableEq

/-- `result.get("snippet", "No snippet available")`. -/
def snippetText (r : WebResult) : String :=
  r.snippet.getD "No snippet available"

/-- The loop body of `FireCrawlWebSearchTool._run`, iterating over the
remaining attempt outcomes.  Returns the produced string together with the
list of `time.sleep` durations (in seconds) performed, or `none` if the
loop fell through without returning (impossible for `retries = 3`). -/
def fireCrawlLoop : List TransportOutcome → Option (String × List Nat)
  | [] => none
  | o :: rest =>
    match o with
    | .ok data =>
      if data.results.isEmpty then
        some ("No results found.", [])
      else
        some (String.intercalate "\n" (data.results.map snippetText), [])
    | .err e =>
      match rest with
      | [] => some ("Error during FireCrawl web search: " ++ e, [])
      | _ :: _ => (fireCrawlLoop rest).map (fun p => (p.1, 2 :: p.2))

/-- `FireCrawlWebSearchTool._run` with `retries = 3`: the transport is
consulted for attempts `0, 1, 2` (`for attempt in range(retries)`). -/
def fireCrawlRun (transport : Nat → TransportOutcome) : Option (String × List Nat) :=
  fireCrawlLoop [transport 0, transport 1, transport 2]

/-! ## DocumentSearchTool (`custom_tool.py`)

`_process_document` extracts text (MarkItDown, opaque), chunks it
(chonkie `SemanticChunker`, opaque but configured with explicit
parameters), and inserts the chunks into an in-memory qdrant collection.
The qdrant client is modelled from its documented interface: `add` stores
points `(id, document, metadata)`; `query(collection, query_text)` with no
`limit` argument returns the stored points ranked by embedding similarity
to the query, at most the client default `limit = 10`, with the similarity
scoring function opaque (a parameter of the model). -/

/-- The metadata dict attached to every chunk:
`{"source": os.path.basename(self.file_path)}`. -/
structure ChunkMeta where
  source : String
deriving DecidableEq

/-- A stored point of the qdrant collection: integer id, chunk text
(`document`), and metadata. -/
structure Point where
  id : Nat
  document : String
  metadata : ChunkMeta
deriving DecidableEq

/-- `os.path.basename`: the part of the path after the last `/`. -/
def basename (path : String) : String :=
  (path.splitOn "/").getLastD path

/-- Configuration of the chonkie `SemanticChunker` as constructed in
`_create_chunks`. -/
structure ChunkerConfig where
  embedding_model : String
  threshold : ℚ
  chunk_size : Nat
  min_sentences : Nat
deriving DecidableEq

/-- The exact `SemanticChunker(...)` arguments of `_create_chunks`. -/
def createChunksConfig : ChunkerConfig :=
  { embedding_model := "minishlab/potion-base-8M"
    threshold := 1/2
    chunk_size := 512
    min_sentences := 1 }

/-- `DocumentSearchTool._process_document`, given the opaque chunker
(always invoked with `createChunksConfig`) and the extracted raw text:
`docs = [chunk.text for chunk in chunks]`,
`metadata = [{"source": basename(file_path)}] * len(chunks)`,
`ids = list(range(len(chunks)))`, then `client.add` zips them into the
collection's points. -/
def processDocument (chunker : ChunkerConfig → String → List String)
    (filePath rawText : String) : List Point :=
  let chunks := chunker createChunksConfig rawText
  (List.range chunks.length).zipWith
    (fun i doc => { id := i, document := doc, metadata := ⟨basename filePath⟩ })
    chunks

/-- Modelled from the qdrant client interface: `client.query` returns the
stored points ordered by embedding similarity (descending score under the
opaque scoring function) and truncated to the `limit` parameter, whose
client-side default is 10.  `DocumentSearchTool._run` passes no `limit`. -/
def qdrantQuery (score : String → String → Int) (collection : List Point)
    (queryText : String) (limit : Nat := 10) : List Point :=
  (collection.mergeSort
    (fun a b => decide (score queryText b.document ≤ score queryText a.document))).take limit

/-- `DocumentSearchTool._run`: query the collection, then join the
retrieved chunk texts with the separator `"\n___\n"`. -/
def documentSearchRun (score : String → String → Int) (collection : List Point)
    (query : String) : String :=
  let relevantChunks := qdrantQuery score collection query
  let docs := relevantChunks.map (fun chunk => chunk.document)
  let separator := "\n___\n"
  String.intercalate separator docs

/-! ## Session state (`app.py`)

`st.session_state` holds `messages`, `pdf_tool`, `crew`, `pdf_processed`
and (after a first upload) `current_pdf`.  A `DocumentSearchTool` handle
is identified by the file path it was constructed with; a `Crew` handle by
the `pdf_tool` it was built from (`create_agents_and_tasks(pdf_tool)`). -/

/-- Chat message roles of the Streamlit history. -/
inductive Role where
  | user
  | assistant
deriving DecidableEq

/-- One entry of `st.session_state.messages`:
`{"role": ..., "content": ...}`. -/
structure Message where
  role : Role
  content : String
deriving DecidableEq

/-- A `DocumentSearchTool` handle as stored in the session: identified by
the file path passed to its constructor. -/
structure DocTool where
  file_path : String
deriving DecidableEq

/-- A `Crew` handle: `create_agents_and_tasks` closes over the (possibly
absent) pdf tool. -/
structure CrewHandle where
  pdf_tool : Option DocTool
deriving DecidableEq

/-- `create_agents_and_tasks(pdf_tool)`. -/
def create_agents_and_tasks (pdf_tool : Option DocTool) : CrewHandle :=
  { pdf_tool := pdf_tool }

/-- The mutable Streamlit session state owned by one conversation. -/
structure SessionState where
  messages : List Message
  pdf_tool : Option DocTool
  crew : Option CrewHandle
  pdf_processed : Bool
  current_pdf : Option String
deriving DecidableEq

/-- `reset_chat` in `app.py`: clears the history, the processed flag, the
pdf tool and the crew handle (it does not touch `current_pdf`). -/
def reset_chat (s : SessionState) : SessionState :=
  { s with
    messages := []
    pdf_processed := false
    pdf_tool := none
    crew := none }

/-- `PDF_UPLOAD_DIR = Path("pdf_uploads")`. -/
def PDF_UPLOAD_DIR : String := "pdf_uploads"

/-- `handle_pdf_upload` in `app.py`, success path (file I/O and the
Streamlit spinner are elided; `DocumentSearchTool(file_path=...)` is the
opaque `mkTool`).  Returns the path handed back to the caller together
with the updated session state. -/
def handle_pdf_upload (mkTool : String → DocTool) (s : SessionState)
    (uploadedName : String) : Option String × SessionState :=
  if s.current_pdf = some uploadedName ∧ s.pdf_processed = true ∧ s.pdf_tool ≠ none then
    (some (PDF_UPLOAD_DIR ++ "/" ++ uploadedName), s)
  else
    let s1 := if s.current_pdf ≠ some uploadedName then reset_chat s else s
    let tempFile := PDF_UPLOAD_DIR ++ "/" ++ uploadedName
    let s2 := { s1 with
      pdf_tool := some (mkTool tempFile)
      pdf_processed := true
      current_pdf := some uploadedName
      crew := none }
    (some tempFile, s2)

/-! ## Chat turn handler (`app.py`, `if prompt:` block)

The crew kickoff is an LLM-driven external call; its outcome per turn is a
parameter: either a raw result string or a raised exception rendered by
`str(e)`. -/

/-- `needle in hay` on characters: Python's substring operator. -/
def startsWithChars : List Char → List Char → Bool
  | [], _ => true
  | _ :: _, [] => false
  | a :: as, b :: bs => a == b && startsWithChars as bs

/-- Auxiliary scan for the substring test. -/
def hasSubChars (needle : List Char) : List Char → Bool
  | [] => startsWithChars needle []
  | c :: rest => startsWithChars needle (c :: rest) || hasSubChars needle rest

/-- Python `needle in hay` for strings. -/
def strContains (hay needle : String) : Bool :=
  hasSubChars needle.data hay.data

/-- Outcome of `st.session_state.crew.kickoff(inputs=inputs).raw`. -/
inductive KickoffOutcome where
  | success (raw : String)
  | failure (e : String)
deriving DecidableEq

/-- The rate-limit test of the exception branch:
`"RateLimitError" in str(e) or "rate_limit_exceeded" in str(e)`. -/
def isRateLimitText (e : String) : Bool :=
  strContains e "RateLimitError" || strContains e "rate_limit_exceeded"

/-- The rate-limit error message appended to the history. -/
def rateLimitErrorMsg : String :=
  "⚠️ Our systems are currently experiencing high demand. Please try again in a few moments."

/-- The generic error message appended to the history. -/
def genericErrorMsg : String :=
  "⚠️ An unexpected error occurred. Please try again later."

/-- One chat turn of `app.py`: append the user message, build the crew if
absent, run the kickoff, and append either the raw result or the
appropriate error message.  Always returns a final session state (the
handler never leaves the turn without appending an assistant message). -/
def processTurn (s : SessionState) (prompt : String)
    (outcome : KickoffOutcome) : SessionState :=
  let s1 := { s with messages := s.messages ++ [(⟨.user, prompt⟩ : Message)] }
  let s2 :=
    if s1.crew = none then
      { s1 with crew := some (create_agents_and_tasks s1.pdf_tool) }
    else s1
  match outcome with
  | .success raw =>
    { s2 with messages := s2.messages ++ [(⟨.assistant, raw⟩ : Message)] }
  | .failure e =>
    let errorMsg := if isRateLimitText e then rateLimitErrorMsg else genericErrorMsg
    { s2 with messages := s2.messages ++ [(⟨.assistant, errorMsg⟩ : Message)] }

/-! ## `app_orig.py`: inline kickoff retry loop

The chat handler of `app_orig.py` wraps `crew.kickoff` in
`for attempt in range(3): try: ... break; except RateLimitError: if
attempt == 2: raise; time.sleep(5 * (attempt + 1))`.  The kickoff outcome
per attempt is a parameter; the result records the returned value or the
exception that escaped, plus the sleeps performed. -/

/-- Outcome of one `crew.kickoff` attempt in `app_orig.py`: success, a
`RateLimitError`, or any other exception. -/
inductive OrigKickoffOutcome where
  | ok (raw : String)
  | rateLimit (e : String)
  | otherErr (e : String)
deriving DecidableEq

/-- Result of the retry loop: the raw result (loop exited via `break`), a
re-raised `RateLimitError` (attempt 2), or a propagated other exception;
each with the list of `time.sleep` durations performed inside the loop. -/
inductive OrigKickoffResult where
  | ok (raw : String) (sleeps : List Nat)
  | raisedRateLimit (e : String) (sleeps : List Nat)
  | raisedOther (e : String) (sleeps : List Nat)
deriving DecidableEq

/-- Prepend a sleep duration to a result's sleep log. -/
def OrigKickoffResult.consSleep (w : Nat) : OrigKickoffResult → OrigKickoffResult
  | .ok raw sleeps => .ok raw (w :: sleeps)
  | .raisedRateLimit e sleeps => .raisedRateLimit e (w :: sleeps)
  | .raisedOther e sleeps => .raisedOther e (w :: sleeps)

/-- The loop body over the remaining attempt indices.  `none` models the
loop falling through without a `break` (unreachable for `range(3)`): only
`RateLimitError` is caught, any other exception propagates at once, and on
the attempt with index 2 the `RateLimitError` is re-raised; otherwise the
handler sleeps `5 * (attempt + 1)` seconds and retries. -/
def origKickoffLoop (outcome : Nat → OrigKickoffOutcome) :
    List Nat → Option OrigKickoffResult
  | [] => none
  | attempt :: rest =>
    match outcome attempt with
    | .ok raw => some (.ok raw [])
    | .otherErr e => some (.raisedOther e [])
    | .rateLimit e =>
      if attempt = 2 then
        some (.raisedRateLimit e [])
      else
        (origKickoffLoop outcome rest).map (OrigKickoffResult.consSleep (5 * (attempt + 1)))

/-- The retry loop as executed: `for attempt in range(3)`. -/
def origKickoffRun (outcome : Nat → OrigKickoffOutcome) : Option OrigKickoffResult :=
  origKickoffLoop outcome [0, 1, 2]

/-! ## `app_orig.py`: context building and capping

Before the kickoff, the handler tries to query the pdf tool and cap the
context: `context = pdf_tool.search(query=prompt, top_k=3)`, then
`if isinstance(context, list): context_str = "\n".join([str(c)[:500] for c
in context])[:2000] else: context_str = str(context)[:2000]`, with
`except Exception: context_str = "Error retrieving context from
document."`.  `DocumentSearchTool` (custom_tool.py) defines only
`_extract_text`, `_create_chunks`, `_process_document` and `_run` — it has
no `search` attribute, so the attribute lookup raises `AttributeError` on
every call and the `except` branch always runs; the capping branches are
modelled below exactly as written, behind the always-failing call.  Python
slices strings by characters, modelled by `List.take` on the character
data. -/

/-- Python `s[:n]`: the first `n` characters of `s`. -/
def pySlice (s : String) (n : Nat) : String :=
  String.mk (s.data.take n)

/-- The value of `context` returned by the document search: either a list
of snippets or (as `DocumentSearchTool._run` actually returns) a single
joined string. -/
inductive SearchResult where
  | lst (items : List String)
  | str (s : String)
deriving DecidableEq

/-- The context-capping branch of the `app_orig.py` chat handler
(lines 425-429), as written in the source. -/
def buildContextStr : SearchResult → String
  | .lst items =>
    pySlice (String.intercalate "\n" (items.map (fun c => pySlice c 500))) 2000
  | .str s => pySlice s 2000

/-- Evaluating `pdf_tool.search(query=..., top_k=...)` on a
`DocumentSearchTool`: the class defines no `search` attribute, so Python
raises `AttributeError` (message quotes elided) for every query and every
`top_k` — the call never produces a `SearchResult`. -/
def docToolSearch (_query : String) (_topK : Nat) : Except String SearchResult :=
  .error "AttributeError: DocumentSearchTool object has no attribute search"

/-- The full context-building block of the `app_orig.py` chat handler
(lines 416-432): `context_str = ""`; if a pdf tool is bound, try
`pdf_tool.search` and cap the result, and on any exception substitute the
fixed string `"Error retrieving context from document."`. -/
def origBuildContext (pdf_tool : Option DocTool) (prompt : String) : String :=
  match pdf_tool with
  | none => ""
  | some _ =>
    match docToolSearch prompt 3 with
    | .ok context => buildContextStr context
    | .error _ => "Error retrieving context from document."

/-! ## Concrete fixtures used to instantiate the theorems -/

/-- A transport that fails on attempts 0 and 1 and succeeds on attempt 2
with one result. -/
def failTwiceTransport : Nat → TransportOutcome := fun n =>
  if n < 2 then .err "boom" else .ok ⟨[⟨some "first snippet"⟩]⟩

/-- A transport that fails on every attempt. -/
def alwaysFailTransport : Nat → TransportOutcome := fun _ => .err "boom"

/-- A transport that succeeds immediately with zero results. -/
def emptyOkTransport : Nat → TransportOutcome := fun _ => .ok ⟨[]⟩

/-- A degenerate similarity score for concrete evaluations. -/
def exScore : String → String → Int := fun _ _ => 0

/-- A collection built from a single short chunk. -/
def exCollection : List Point :=
  processDocument (fun _ _ => ["hello world"]) "docs/report.pdf" "hello world"

/-- A kickoff that raises `RateLimitError` on every attempt. -/
def allRateLimitKickoff : Nat → OrigKickoffOutcome :=
  fun _ => .rateLimit "rate_limit_exceeded"

/-- A kickoff that raises a non-rate-limit exception immediately. -/
def otherErrKickoff : Nat → OrigKickoffOutcome := fun _ => .otherErr "ValueError"

/-- A kickoff that is rate-limited once and then succeeds. -/
def recoverKickoff : Nat → OrigKickoffOutcome := fun n =>
  if n = 0 then .rateLimit "rate_limit_exceeded" else .ok "answer"

/-- A session that has fully processed `a.pdf` and holds one message. -/
def exSession : SessionState :=
  { messages := [⟨.user, "hi"⟩]
    pdf_tool := some ⟨"pdf_uploads/a.pdf"⟩
    crew := some ⟨some ⟨"pdf_uploads/a.pdf"⟩⟩
    pdf_processed := true
    current_pdf := some "a.pdf" }

/-! ## Theorems -/

/-- C2: on transport or non-2xx failure the web search call is retried up
to 3 attempts total with a fixed 2-second pause between attempts; a run
that fails twice and succeeds on the 3rd attempt returns the successful
result after exactly two pauses, and a run that fails on all 3 attempts
returns a human-readable error string (a returned value, not a raised
exception). -/
theorem fireCrawl_retry_behavior (t t2 : Nat → TransportOutcome)
    (e0 e1 f0 f1 f2 : String) (d : WebResponse)
    (h0 : t 0 = .err e0) (h1 : t 1 = .err e1) (h2 : t 2 = .ok d)
    (hres : d.results ≠ [])
    (g0 : t2 0 = .err f0) (g1 : t2 1 = .err f1) (g2 : t2 2 = .err f2) :
    fireCrawlRun t
      = some (String.intercalate "\n" (d.results.map snippetText), [2, 2]) ∧
    fireCrawlRun t2 = some ("Error during FireCrawl web search: " ++ f2, [2, 2]) := by
  constructor
  · rw [fireCrawlRun, h0, h1, h2]
    simp [fireCrawlLoop, List.isEmpty_iff, hres]
  · rw [fireCrawlRun, g0, g1, g2]
    simp [fireCrawlLoop]

/-- Witness for C2 at the concrete transports. -/
theorem fireCrawl_retry_behavior_witness :
    fireCrawlRun failTwiceTransport = some ("first snippet", [2, 2]) ∧
    fireCrawlRun alwaysFailTransport
      = some ("Error during FireCrawl web search: boom", [2, 2]) :=
  fireCrawl_retry_behavior failTwiceTransport alwaysFailTransport
    "boom" "boom" "boom" "boom" "boom" ⟨[⟨some "first snippet"⟩]⟩
    rfl rfl rfl (by decide) rfl rfl rfl

/-- C5: a successful response with zero results yields the string
`"No results found."` as a returned value, and that string differs from
every error string produced by a transport failure. -/
theorem fireCrawl_no_results (t : Nat → TransportOutcome) (d : WebResponse)
    (h0 : t 0 = .ok d) (hres : d.results = []) :
    fireCrawlRun t = some ("No results found.", []) ∧
    ∀ e : String, "No results found." ≠ "Error during FireCrawl web search: " ++ e := by
  constructor
  · rw [fireCrawlRun, h0]
    simp [fireCrawlLoop, hres]
  · intro e h
    have hlen := congrArg String.length h
    rw [String.length_append] at hlen
    have h17 : ("No results found." : String).length = 17 := rfl
    have h35 : ("Error during FireCrawl web search: " : String).length = 35 := rfl
    rw [h17, h35] at hlen
    omega

/-- Witness for C5 at the concrete transport. -/
theorem fireCrawl_no_results_witness :
    fireCrawlRun emptyOkTransport = some ("No results found.", []) :=
  (fireCrawl_no_results emptyOkTransport ⟨[]⟩ rfl rfl).1

/-- C8: `reset_chat` clears the message history to the empty sequence,
clears the document binding and the crew handle to `None`, and sets the
indexing-succeeded flag to `false`, in one operation on the session
state. -/
theorem reset_chat_clears_all (s : SessionState) :
    (reset_chat s).messages = [] ∧
    (reset_chat s).pdf_tool = none ∧
    (reset_chat s).crew = none ∧
    (reset_chat s).pdf_processed = false :=
  ⟨rfl, rfl, rfl, rfl⟩

/-- C9: a turn whose kickoff raises appends the user message followed by a
user-visible assistant error message — the rate-limit message when the
error text matches the rate-limit test, the generic message otherwise, and
the two messages are distinct — and leaves the rest of the session state
ready for further turns. -/
theorem turn_failure_appends_error (s : SessionState) (prompt e : String) :
    (processTurn s prompt (.failure e)).messages
      = s.messages ++
          [⟨.user, prompt⟩,
           ⟨.assistant, if isRateLimitText e then rateLimitErrorMsg else genericErrorMsg⟩] ∧
    rateLimitErrorMsg ≠ genericErrorMsg ∧
    (processTurn s prompt (.failure e)).pdf_tool = s.pdf_tool ∧
    (processTurn s prompt (.failure e)).pdf_processed = s.pdf_processed := by
  refine ⟨?_, by decide, ?_, ?_⟩ <;>
    · simp only [processTurn]
      split <;> simp

/-- C10: re-uploading the currently processed document returns the
existing upload path with the session state untouched (no re-indexing, no
history clearing), while uploading a differently named document first
performs a full `reset_chat` (messages, document binding, processed flag,
crew) and then indexes the new document. -/
theorem upload_idempotent_or_resets (mkTool : String → DocTool) (s : SessionState)
    (sameName newName : String)
    (hname : s.current_pdf = some sameName) (hproc : s.pdf_processed = true)
    (htool : s.pdf_tool ≠ none) (hnew : s.current_pdf ≠ some newName) :
    handle_pdf_upload mkTool s sameName
      = (some (PDF_UPLOAD_DIR ++ "/" ++ sameName), s) ∧
    handle_pdf_upload mkTool s newName
      = (some (PDF_UPLOAD_DIR ++ "/" ++ newName),
         { reset_chat s with
           pdf_tool := some (mkTool (PDF_UPLOAD_DIR ++ "/" ++ newName))
           pdf_processed := true
           current_pdf := some newName
           crew := none }) := by
  constructor
  · rw [handle_pdf_upload, if_pos ⟨hname, hproc, htool⟩]
  · rw [handle_pdf_upload, if_neg, if_pos hnew]
    intro ⟨hc, _, _⟩
    exact hnew hc

/-- Witness for C10 at the concrete session. -/
theorem upload_idempotent_or_resets_witness :
    handle_pdf_upload DocTool.mk exSession "a.pdf"
      = (some "pdf_uploads/a.pdf", exSession) ∧
    handle_pdf_upload DocTool.mk exSession "b.pdf"
      = (some "pdf_uploads/b.pdf",
         { reset_chat exSession with
           pdf_tool := some ⟨"pdf_uploads/b.pdf"⟩
           pdf_processed := true
           current_pdf := some "b.pdf"
           crew := none }) :=
  upload_idempotent_or_resets DocTool.mk exSession "a.pdf" "b.pdf"
    rfl rfl (by decide) (by decide)

/-- For any metadata value and starting index, zipping `range' k n` with
the chunk list into points yields points whose ids are exactly
`range' k n`, whose documents are exactly the chunks, and whose metadata
is the given value. -/
theorem zipPoints_spec (m : ChunkMeta) (k : Nat) (chunks : List String) :
    (((List.range' k chunks.length).zipWith
        (fun i doc => ({ id := i, document := doc, metadata := m } : Point))
        chunks).map Point.id = List.range' k chunks.length) ∧
    (((List.range' k chunks.length).zipWith
        (fun i doc => ({ id := i, document := doc, metadata := m } : Point))
        chunks).map Point.document = chunks) ∧
    (∀ p ∈ (List.range' k chunks.length).zipWith
        (fun i doc => ({ id := i, document := doc, metadata := m } : Point))
        chunks, p.metadata = m) := by
  induction chunks generalizing k with
  | nil => simp
  | cons c cs ih =>
    obtain ⟨h1, h2, h3⟩ := ih (k + 1)
    refine ⟨?_, ?_, ?_⟩
    · simpa [List.range'_succ] using h1
    · simpa [List.range'_succ] using h2
    · intro p hp
      simp only [List.length_cons, List.range'_succ, List.zipWith_cons_cons,
        List.mem_cons] at hp
      rcases hp with rfl | hp
      · rfl
      · exact h3 p hp

/-- C4: the indexing step configures the semantic chunker with threshold
0.5, maximum chunk size 512 and a minimum of 1 sentence per chunk, assigns
the resulting chunks consecutive integer ids starting at 0, and inserts
every chunk into the collection tagged with the source filename as
metadata. -/
theorem processDocument_spec (chunker : ChunkerConfig → String → List String)
    (filePath rawText : String) :
    createChunksConfig.threshold = 1/2 ∧
    createChunksConfig.chunk_size = 512 ∧
    createChunksConfig.min_sentences = 1 ∧
    (processDocument chunker filePath rawText).map Point.id
      = List.range (chunker createChunksConfig rawText).length ∧
    (processDocument chunker filePath rawText).map Point.document
      = chunker createChunksConfig rawText ∧
    ∀ p ∈ processDocument chunker filePath rawText,
      p.metadata = ⟨basename filePath⟩ := by
  obtain ⟨h1, h2, h3⟩ :=
    zipPoints_spec ⟨basename filePath⟩ 0 (chunker createChunksConfig rawText)
  refine ⟨rfl, rfl, rfl, ?_, ?_, ?_⟩
  · rw [processDocument, List.range_eq_range']
    exact h1
  · rw [processDocument, List.range_eq_range']
    exact h2
  · rw [processDocument, List.range_eq_range']
    exact h3

/-- C3 counterexample: the document query operation exposes no `top_k`
parameter, so its result count cannot be bounded by an arbitrary `k`: on a
one-chunk collection the query returns one chunk, violating the bound at
`k = 0`. -/
theorem documentQuery_topk_counterexample :
    ¬ ∀ k : Nat, (qdrantQuery exScore exCollection "anything").length ≤ k := by
  intro h
  have h0 := h 0
  have hone : exCollection.length = 1 := rfl
  have hlen : (qdrantQuery exScore exCollection "anything").length = 1 := by
    rw [qdrantQuery, List.length_take, List.length_mergeSort, hone]
    decide
  omega

/-- C3 amended: the query operation (which takes no `top_k`) returns at
most the client default of 10 results, ordered by descending similarity
score; every returned chunk's source metadata equals the basename of the
file path supplied at build time; and an empty chunk set yields an empty
result (the empty joined string) rather than an error. -/
theorem documentQuery_spec (score : String → String → Int)
    (chunker : ChunkerConfig → String → List String)
    (filePath rawText queryText : String) :
    (qdrantQuery score (processDocument chunker filePath rawText) queryText).length ≤ 10 ∧
    List.Sorted (fun a b : Point => score queryText b.document ≤ score queryText a.document)
      (qdrantQuery score (processDocument chunker filePath rawText) queryText) ∧
    (∀ p ∈ qdrantQuery score (processDocument chunker filePath rawText) queryText,
      p.metadata = ⟨basename filePath⟩) ∧
    (chunker createChunksConfig rawText = [] →
      documentSearchRun score (processDocument chunker filePath rawText) queryText = "") := by
  refine ⟨?_, ?_, ?_, ?_⟩
  · rw [qdrantQuery]
    exact List.length_take_le _ _
  · have hs := @List.sorted_mergeSort Point
      (fun a b => decide (score queryText b.document ≤ score queryText a.document))
      (fun a b c hab hbc => by
        simp only [decide_eq_true_eq] at *
        omega)
      (fun a b => by
        simp only [Bool.or_eq_true, decide_eq_true_eq]
        omega)
      (processDocument chunker filePath rawText)
    have ht := List.Pairwise.sublist (List.take_sublist 10 _) hs
    exact ht.imp (fun h => by simpa using h)
  · intro p hp
    rw [qdrantQuery] at hp
    have hp2 : p ∈ processDocument chunker filePath rawText :=
      List.mem_mergeSort.mp (List.mem_of_mem_take hp)
    obtain ⟨-, -, h3⟩ :=
      zipPoints_spec ⟨basename filePath⟩ 0 (chunker createChunksConfig rawText)
    rw [processDocument, List.range_eq_range'] at hp2
    exact h3 p hp2
  · intro hempty
    simp [documentSearchRun, qdrantQuery, processDocument, hempty, String.intercalate]

/-- Witness for the empty-chunks branch of the amended C3 theorem. -/
theorem documentQuery_spec_witness :
    documentSearchRun exScore (processDocument (fun _ _ => []) "docs/a.pdf" "") "q" = "" :=
  (documentQuery_spec exScore (fun _ _ => []) "docs/a.pdf" "" "q").2.2.2 rfl

/-- C6 counterexample: three consecutive rate-limited kickoffs in the
`app_orig.py` handler sleep 5 and then 10 seconds — not the 4-second-base
exponential backoff schedule capped at 10 claimed by the spec. -/
theorem kickoff_backoff_counterexample :
    origKickoffRun allRateLimitKickoff
      = some (.raisedRateLimit "rate_limit_exceeded" [5, 10]) ∧
    [5, 10] ≠ [min (4 * 2 ^ 0) 10, min (4 * 2 ^ 1) 10] :=
  ⟨rfl, by decide⟩

/-- C6 amended: rate-limited kickoffs are retried up to 3 attempts total
with linearly growing pauses of `5 * (attempt + 1)` seconds (5 s then
10 s); after the 3rd rate-limited attempt the error is re-raised, while a
non-rate-limit failure propagates immediately with no retry and no pause,
and a run that is rate-limited once and then succeeds returns the result
after a single 5-second pause. -/
theorem kickoff_retry_spec (o1 o2 o3 : Nat → OrigKickoffOutcome)
    (e0 e1 e2 f raw : String)
    (h0 : o1 0 = .rateLimit e0) (h1 : o1 1 = .rateLimit e1)
    (h2 : o1 2 = .rateLimit e2)
    (g0 : o2 0 = .otherErr f)
    (k0 : o3 0 = .rateLimit e0) (k1 : o3 1 = .ok raw) :
    origKickoffRun o1 = some (.raisedRateLimit e2 [5, 10]) ∧
    origKickoffRun o2 = some (.raisedOther f []) ∧
    origKickoffRun o3 = some (.ok raw [5]) := by
  refine ⟨?_, ?_, ?_⟩ <;>
    simp [origKickoffRun, origKickoffLoop, h0, h1, h2, g0, k0, k1,
      OrigKickoffResult.consSleep]

/-- Witness for C6's amended theorem at the concrete kickoff outcomes. -/
theorem kickoff_retry_spec_witness :
    origKickoffRun allRateLimitKickoff
      = some (.raisedRateLimit "rate_limit_exceeded" [5, 10]) ∧
    origKickoffRun otherErrKickoff = some (.raisedOther "ValueError" []) ∧
    origKickoffRun recoverKickoff = some (.ok "answer" [5]) :=
  kickoff_retry_spec allRateLimitKickoff otherErrKickoff recoverKickoff
    "rate_limit_exceeded" "rate_limit_exceeded" "rate_limit_exceeded"
    "ValueError" "answer" rfl rfl rfl rfl rfl rfl

/-- C7: the capping code of the `app_orig.py` handler is dead — the
document-search call raises `AttributeError` on every turn because
`DocumentSearchTool` has no `search` method, so the context handed to the
synthesizer is the empty string (no tool bound) or the fixed substitute
string `"Error retrieving context from document."` (tool bound); no
retrieved content is ever capped or handed off.  Evaluated at a turn with
a bound tool: the handed context is the fixed error string, independent of
the document's content. -/
theorem context_capping_dead_code :
    (∀ (pdf_tool : Option DocTool) (prompt : String),
      origBuildContext pdf_tool prompt = "" ∨
      origBuildContext pdf_tool prompt = "Error retrieving context from document.") ∧
    origBuildContext (some ⟨"pdf_uploads/a.pdf"⟩) "What is the most recent role?"
      = "Error retrieving context from document." := by
  refine ⟨?_, rfl⟩
  intro pdf_tool prompt
  match pdf_tool with
  | none => exact Or.inl rfl
  | some _ => exact Or.inr rfl

end AgenticRag
